import Mathlib

/-!
Verification development for the ZenScout marketplace scouting pipeline
(`src/zen_scout.py`).  The core scrape–normalize–filter logic is embedded
shallowly:

* `is_qualified` mirrors the pure qualification function (lines 106–120);
* `get_ai_verdict` mirrors the vision-verdict wrapper (lines 122–157), with
  the external HTTP/Gemini interaction abstracted into a `VisionEnv`;
* `extractRow`, `runPages` and `run_platform_scrape` mirror the paginated
  scrape loop (lines 159–260), with each DOM candidate node abstracted into
  a `Node` record holding exactly the selector/attribute lookups the code
  performs, and the network fetch abstracted into a `FetchResult` per page.

Prices and rates are modelled as `ℚ`.  Python's binary floats are exact on
the integral yen amounts the code manipulates; `round(x, 2)` is modelled as
exact round-half-to-even at two decimals (`round2`).
-/

/-- Python `a or b` on optional DOM tags: BeautifulSoup tags are always
truthy, so only `None` falls through to the second alternative. -/
def firstSome {α : Type} (a b : Option α) : Option α :=
  match a with
  | some x => some x
  | none => b

/-- Python `str.lower()`, applied codepoint-wise.  `Char.toLower` lowers the
ASCII range; the non-Latin (Japanese) keywords in the program's default set
are caseless, so this agrees with Python's lowering on the scripts the
program handles. -/
def pyLower (s : String) : String := String.mk (s.toList.map Char.toLower)

/-- Whitespace stripped by Python `str.strip()`. -/
def isPySpace (c : Char) : Bool :=
  (c == ' ') || (c == '\t') || (c == '\n') || (c == '\r') || (c == '\x0b') || (c == '\x0c')

/-- Python `str.strip()`: drop whitespace from both ends. -/
def pyStrip (s : String) : String :=
  String.mk ((((s.toList.dropWhile isPySpace).reverse).dropWhile isPySpace).reverse)

/-- Python `s[:n]` on a string. -/
def pyTake (s : String) (n : ℕ) : String := String.mk (s.toList.take n)

/-- The ASCII apostrophe used by the keyword-rejection reason f-string. -/
def squote : Char := Char.ofNat 39

/-- Is `needle` a prefix of `hay` (codepoint-wise)? -/
def isSubAt : List Char → List Char → Bool
  | [], _ => true
  | _ :: _, [] => false
  | a :: as, b :: bs => (a == b) && isSubAt as bs

/-- Does `needle` occur as a contiguous run inside `hay`? -/
def hasInfix (needle : List Char) : List Char → Bool
  | [] => needle.isEmpty
  | c :: rest => isSubAt needle (c :: rest) || hasInfix needle rest

/-- Python's `needle in haystack` on `str`: a codepoint-based contiguous
substring test (Python strings are sequences of code points). -/
def pyInStr (needle haystack : String) : Bool :=
  hasInfix needle.toList haystack.toList

/-- Python `s.startswith(p)`. -/
def pyStartsWith (s p : String) : Bool :=
  isSubAt p.toList s.toList

/-- One iteration of the keyword loop of `is_qualified` (lines 116–117):
`word.strip() and word.strip().lower() in title_lower`. -/
def kwHit (titleLower : String) (word : String) : Bool :=
  (pyStrip word != "") && pyInStr (pyLower (pyStrip word)) titleLower

/-- Python `int(x)` on a real value: truncation toward zero. -/
def truncInt (q : ℚ) : ℤ :=
  if q.num < 0 then -((q.num.natAbs / q.den : ℕ) : ℤ) else ((q.num.natAbs / q.den : ℕ) : ℤ)

/-- Insert a comma after every third character of a reversed digit list. -/
def commaRev : List Char → List Char
  | a :: b :: c :: d :: rest => a :: b :: c :: ',' :: commaRev (d :: rest)
  | l => l

/-- Python `f"{n:,}"` for an integer: decimal digits grouped in threes by
commas, with a leading minus sign for negative values. -/
def formatComma (n : ℤ) : String :=
  let grouped := (commaRev (Nat.toDigits 10 n.natAbs).reverse).reverse
  if n < 0 then String.mk ('-' :: grouped) else String.mk grouped

/-- Rejection reason of the floor check (line 110). -/
def priceLowReason (price_jpy : ℚ) : String :=
  "Price too low (¥" ++ formatComma (truncInt price_jpy) ++ ")"

/-- Rejection reason of the ceiling check (line 113). -/
def priceHighReason (price_jpy : ℚ) : String :=
  "Price too high (¥" ++ formatComma (truncInt price_jpy) ++ ")"

/-- Rejection reason of the keyword check (line 118): the original,
un-trimmed keyword wrapped in single quotes. -/
def kwReason (word : String) : String :=
  "Detected keyword: " ++ String.singleton squote ++ word ++ String.singleton squote

/-- Embedding of `is_qualified` (lines 106–120): floor check, then ceiling check (only
when the ceiling is positive), then the first matching negative keyword;
otherwise accepted with the fixed marker. -/
def is_qualified (title : String) (price_jpy min_jpy_floor max_jpy_ceiling : ℚ)
    (negative_keywords : List String) : Bool × String :=
  if price_jpy < min_jpy_floor then
    (false, priceLowReason price_jpy)
  else if 0 < max_jpy_ceiling ∧ max_jpy_ceiling < price_jpy then
    (false, priceHighReason price_jpy)
  else
    match negative_keywords.find? (kwHit (pyLower title)) with
    | some word => (false, kwReason word)
    | none => (true, "Qualified by Text")

lemma isq_low {t : String} {p f c : ℚ} {k : List String} (h : p < f) :
    is_qualified t p f c k = (false, priceLowReason p) := by
  unfold is_qualified
  rw [if_pos h]

lemma isq_high {t : String} {p f c : ℚ} {k : List String}
    (h1 : ¬ p < f) (h2 : 0 < c ∧ c < p) :
    is_qualified t p f c k = (false, priceHighReason p) := by
  unfold is_qualified
  rw [if_neg h1, if_pos h2]

lemma isq_kw {t : String} {p f c : ℚ} {k : List String} {w : String}
    (h1 : ¬ p < f) (h2 : ¬ (0 < c ∧ c < p))
    (h3 : k.find? (kwHit (pyLower t)) = some w) :
    is_qualified t p f c k = (false, kwReason w) := by
  unfold is_qualified
  rw [if_neg h1, if_neg h2, h3]

lemma isq_ok {t : String} {p f c : ℚ} {k : List String}
    (h1 : ¬ p < f) (h2 : ¬ (0 < c ∧ c < p))
    (h3 : k.find? (kwHit (pyLower t)) = none) :
    is_qualified t p f c k = (true, "Qualified by Text") := by
  unfold is_qualified
  rw [if_neg h1, if_neg h2, h3]

/-- C1. For every title with no negative-keyword match: with a positive
ceiling, `is_qualified` rejects iff the price is below the floor or above the
ceiling; with a ceiling `≤ 0` (the "no upper bound" sentinel) only the floor
check can reject on price. -/
theorem C1_price_band (title : String) (p f c : ℚ) (kws : List String)
    (hk : ∀ w ∈ kws, kwHit (pyLower title) w = false) :
    (0 < c → (((is_qualified title p f c kws).1 = false) ↔ (p < f ∨ c < p))) ∧
    (c ≤ 0 → (((is_qualified title p f c kws).1 = false) ↔ p < f)) := by
  have hfind : kws.find? (kwHit (pyLower title)) = none := by
    rw [List.find?_eq_none]
    intro x hx
    simp [hk x hx]
  constructor
  · intro hc
    by_cases hpf : p < f
    · simp [isq_low hpf, hpf]
    · by_cases hcp : c < p
      · simp [isq_high hpf ⟨hc, hcp⟩, hpf, hcp]
      · have hnc : ¬ (0 < c ∧ c < p) := fun h => hcp h.2
        simp [isq_ok hpf hnc hfind, hpf, hcp]
  · intro hc
    have hnc : ¬ (0 < c ∧ c < p) := fun h => absurd h.1 (not_lt.mpr hc)
    by_cases hpf : p < f
    · simp [isq_low hpf, hpf]
    · simp [isq_ok hpf hnc hfind, hpf]

theorem C1_price_band_witness :
    ((is_qualified "Rolex Datejust 1601" 400000 452500 633500 ["strap"]).1 = false) ↔
      ((400000 : ℚ) < 452500 ∨ (633500 : ℚ) < 400000) :=
  (C1_price_band "Rolex Datejust 1601" 400000 452500 633500 ["strap"]
    (by decide)).1 (by norm_num)

lemma isSubAt_append (xs ys : List Char) : isSubAt xs (xs ++ ys) = true := by
  induction xs with
  | nil => rfl
  | cons a as ih => simp [isSubAt, ih]

lemma hasInfix_of_isSubAt {needle hay : List Char} (h : isSubAt needle hay = true) :
    hasInfix needle hay = true := by
  cases hay with
  | nil =>
    cases needle with
    | nil => rfl
    | cons a as => simp [isSubAt] at h
  | cons c rest => simp [hasInfix, h]

lemma hasInfix_append (needle pre suf : List Char) :
    hasInfix needle (pre ++ (needle ++ suf)) = true := by
  induction pre with
  | nil => exact hasInfix_of_isSubAt (isSubAt_append needle suf)
  | cons c pre ih => simp [hasInfix, ih]

lemma pyInStr_append (needle pre suf : String) :
    pyInStr needle (pre ++ needle ++ suf) = true := by
  show hasInfix needle.toList (pre ++ needle ++ suf).toList = true
  have hdata : (pre ++ needle ++ suf).toList = pre.toList ++ (needle.toList ++ suf.toList) := by
    show (pre ++ needle ++ suf).data = pre.data ++ (needle.data ++ suf.data)
    rw [String.data_append, String.data_append, List.append_assoc]
  rw [hdata]
  exact hasInfix_append needle.toList pre.toList suf.toList

/-- The keyword rejection reason names the (un-trimmed) matched keyword. -/
lemma pyInStr_kwReason (w : String) : pyInStr w (kwReason w) = true := by
  have h : kwReason w
      = ("Detected keyword: " ++ String.singleton squote) ++ w ++ String.singleton squote := by
    rw [kwReason, String.append_assoc]
  rw [h]
  exact pyInStr_append w ("Detected keyword: " ++ String.singleton squote) (String.singleton squote)

/-- The floor rejection reason shows the formatted observed price. -/
lemma pyInStr_priceLow (p : ℚ) :
    pyInStr (formatComma (truncInt p)) (priceLowReason p) = true :=
  pyInStr_append (formatComma (truncInt p)) "Price too low (¥" ")"

/-- The ceiling rejection reason shows the formatted observed price. -/
lemma pyInStr_priceHigh (p : ℚ) :
    pyInStr (formatComma (truncInt p)) (priceHighReason p) = true :=
  pyInStr_append (formatComma (truncInt p)) "Price too high (¥" ")"

/-- C2 counterexample. The claim says every title containing a
configured negative keyword is rejected with a reason naming that keyword.
On the code, the floor check runs first: a title containing the keyword
"strap" whose price `0` is below the floor is rejected with the price
reason, which does not name the keyword. -/
theorem C2_keyword_counterexample :
    kwHit (pyLower "Rolex 1601 strap only") "strap" = true ∧
    is_qualified "Rolex 1601 strap only" 0 452500 633500 ["strap"]
      = (false, priceLowReason 0) ∧
    priceLowReason 0 = "Price too low (¥0)" ∧
    pyInStr "strap" (priceLowReason 0) = false := by decide

/-- C2 amended. Provided the price passes the floor and ceiling checks:
if some configured keyword survives trimming and occurs case-insensitively
(codepoint-based) in the title, `is_qualified` rejects with a reason naming
the first such keyword in configured order; if no keyword matches, it
accepts. -/
theorem C2_keyword_filter (title : String) (p f c : ℚ) (kws : List String)
    (hp : ¬ p < f) (hc : ¬ (0 < c ∧ c < p)) :
    (∀ w, kws.find? (kwHit (pyLower title)) = some w →
        is_qualified title p f c kws = (false, kwReason w) ∧
        pyStrip w ≠ "" ∧
        pyInStr (pyLower (pyStrip w)) (pyLower title) = true ∧
        pyInStr w (kwReason w) = true) ∧
    ((∀ w ∈ kws, kwHit (pyLower title) w = false) →
        is_qualified title p f c kws = (true, "Qualified by Text")) := by
  constructor
  · intro w hw
    have hhit : kwHit (pyLower title) w = true := List.find?_some hw
    rw [kwHit, Bool.and_eq_true] at hhit
    exact ⟨isq_kw hp hc hw, bne_iff_ne.mp hhit.1, hhit.2, pyInStr_kwReason w⟩
  · intro hk
    have hfind : kws.find? (kwHit (pyLower title)) = none := by
      rw [List.find?_eq_none]
      intro x hx
      simp [hk x hx]
    exact isq_ok hp hc hfind

theorem C2_keyword_filter_witness :
    is_qualified "Rolex Datejust 1601" 500000 452500 633500 ["strap"]
      = (true, "Qualified by Text") :=
  (C2_keyword_filter "Rolex Datejust 1601" 500000 452500 633500 ["strap"]
    (by norm_num) (by norm_num)).2 (by decide)

lemma priceLowReason_ne_rejected (p : ℚ) : priceLowReason p ≠ "rejected" := by
  rw [priceLowReason]
  intro h
  have hl := congrArg String.length h
  rw [String.length_append, String.length_append] at hl
  have h1 : ("Price too low (¥" : String).length = 16 := by decide
  have h2 : (")" : String).length = 1 := by decide
  have h3 : ("rejected" : String).length = 8 := by decide
  omega

lemma priceHighReason_ne_rejected (p : ℚ) : priceHighReason p ≠ "rejected" := by
  rw [priceHighReason]
  intro h
  have hl := congrArg String.length h
  rw [String.length_append, String.length_append] at hl
  have h1 : ("Price too high (¥" : String).length = 17 := by decide
  have h2 : (")" : String).length = 1 := by decide
  have h3 : ("rejected" : String).length = 8 := by decide
  omega

lemma kwReason_ne_rejected (w : String) : kwReason w ≠ "rejected" := by
  rw [kwReason]
  intro h
  have hl := congrArg String.length h
  rw [String.length_append, String.length_append, String.length_append] at hl
  have h1 : ("Detected keyword: " : String).length = 18 := by decide
  have h2 : (String.singleton squote).length = 1 := by decide
  have h3 : ("rejected" : String).length = 8 := by decide
  omega

/-- Whatever branch fires, the reason is never the generic string
"rejected". -/
lemma reason_ne_rejected (title : String) (p f c : ℚ) (kws : List String) :
    (is_qualified title p f c kws).2 ≠ "rejected" := by
  by_cases hpf : p < f
  · rw [isq_low hpf]
    exact priceLowReason_ne_rejected p
  · by_cases hcp : 0 < c ∧ c < p
    · rw [isq_high hpf hcp]
      exact priceHighReason_ne_rejected p
    · cases hfind : kws.find? (kwHit (pyLower title)) with
      | some w =>
        rw [isq_kw hpf hcp hfind]
        exact kwReason_ne_rejected w
      | none =>
        rw [isq_ok hpf hcp hfind]
        decide

/-- C3. The function `is_qualified` applies floor, then ceiling, then keywords, and
the first failing check determines the result; floor/ceiling rejections show
the observed price, keyword rejections name the matched keyword, acceptance
uses the fixed marker "Qualified by Text", and the reason is never a generic
"rejected".  The embedding is a pure Lean function, so the code's
determinism and freedom from side effects are modelled by construction. -/
theorem C3_check_order (title : String) (p f c : ℚ) (kws : List String) :
    (p < f → is_qualified title p f c kws = (false, priceLowReason p)) ∧
    (¬ p < f → 0 < c ∧ c < p →
      is_qualified title p f c kws = (false, priceHighReason p)) ∧
    (¬ p < f → ¬ (0 < c ∧ c < p) →
      ∀ w, kws.find? (kwHit (pyLower title)) = some w →
        is_qualified title p f c kws = (false, kwReason w)) ∧
    (¬ p < f → ¬ (0 < c ∧ c < p) → kws.find? (kwHit (pyLower title)) = none →
      is_qualified title p f c kws = (true, "Qualified by Text")) ∧
    pyInStr (formatComma (truncInt p)) (priceLowReason p) = true ∧
    pyInStr (formatComma (truncInt p)) (priceHighReason p) = true ∧
    (∀ w, pyInStr w (kwReason w) = true) ∧
    (is_qualified title p f c kws).2 ≠ "rejected" := by
  refine ⟨fun h => isq_low h, fun h1 h2 => isq_high h1 h2,
    fun h1 h2 w h3 => isq_kw h1 h2 h3, fun h1 h2 h3 => isq_ok h1 h2 h3,
    pyInStr_priceLow p, pyInStr_priceHigh p, pyInStr_kwReason,
    reason_ne_rejected title p f c kws⟩

theorem C3_check_order_witness :
    is_qualified "Rolex Datejust 1601" 400000 452500 633500 ["strap"]
      = (false, priceLowReason 400000) :=
  (C3_check_order "Rolex Datejust 1601" 400000 452500 633500 ["strap"]).1 (by norm_num)

/-- Round-half-to-even to an integer, Python's `round` mode. -/
def rhe (q : ℚ) : ℤ :=
  if q - Rat.floor q < 1/2 then Rat.floor q
  else if 1/2 < q - Rat.floor q then Rat.floor q + 1
  else if Rat.floor q % 2 = 0 then Rat.floor q else Rat.floor q + 1

/-- Python `round(q, 2)`. -/
def round2 (q : ℚ) : ℚ := (rhe (q * 100) : ℚ) / 100

/-- Currency contract `to_minor` (lines 162–163): the EUR floor/ceiling are
converted to JPY by multiplying with the run's rate. -/
def to_minor (amount_major rate : ℚ) : ℚ := amount_major * rate

/-- Currency contract `to_major` (line 224): a JPY listing price is
converted to EUR by dividing by the rate and rounding to two decimals. -/
def to_major (amount_minor rate : ℚ) : ℚ := round2 (amount_minor / rate)

/-- Digit list (most significant first) to a natural number. -/
def digitsToNat (ds : List Char) : ℕ :=
  ds.foldl (fun a c => a * 10 + (c.toNat - 48)) 0

/-- Decimal core of Python `float(s)` applied to the candidate digits:
optional integer part, optional fractional part, at least one digit in
total, nothing left over.  (Python's full grammar also accepts exponents
and `inf`/`nan`; a well-formed `data-jpy` attribute is a plain decimal, and
everything else lands in the `none` = `ValueError` branch.) -/
def parseUnsignedQ (cs : List Char) : Option ℚ :=
  let ip := cs.takeWhile Char.isDigit
  let rest := cs.dropWhile Char.isDigit
  match rest with
  | [] => if ip.isEmpty then none else some (digitsToNat ip : ℚ)
  | '.' :: rest2 =>
    let fp := rest2.takeWhile Char.isDigit
    let rest3 := rest2.dropWhile Char.isDigit
    if rest3.isEmpty && (!ip.isEmpty || !fp.isEmpty) then
      some ((digitsToNat ip : ℚ) + (digitsToNat fp : ℚ) / (10 ^ fp.length))
    else none
  | _ => none

/-- Python `float(s)`: strip whitespace, optional sign, decimal literal. -/
def parseFloatQ (s : String) : Option ℚ :=
  match (pyStrip s).toList with
  | '-' :: rest => (parseUnsignedQ rest).map (fun q => -q)
  | '+' :: rest => parseUnsignedQ rest
  | cs => parseUnsignedQ cs

/-- Model of `.replace(...)` chains of line 223: drop every yen sign and
comma. -/
def stripPriceChars (s : String) : String :=
  String.mk (s.toList.filter (fun ch => (ch != '¥') && (ch != ',')))

/-- One candidate DOM node, holding exactly the selector and attribute
lookups `run_platform_scrape` performs on it (lines 200–226): the three
title selectors, the two anchor selectors with their `href` attribute, the
image element with its `src` attribute, and the price element with its
`data-jpy` attribute.  `none` = selector found nothing; `some none` =
element present but attribute absent. -/
structure Node where
  itemTitle : Option String
  translateA : Option String
  h3 : Option String
  productItemHref : Option (Option String)
  anchorHref : Option (Option String)
  imgSrc : Option (Option String)
  priceDataJpy : Option (Option String)
deriving DecidableEq, Inhabited

/-- Title selector chain (lines 201–203): `.item-title` or `.translate a`
or `h3`. -/
def titleTag (n : Node) : Option String :=
  firstSome n.itemTitle (firstSome n.translateA n.h3)

/-- Link resolution (lines 208–209): `a.product-item` or `a`; missing tag
or missing `href` yields the empty string. -/
def linkHrefOf (n : Node) : String :=
  match firstSome n.productItemHref n.anchorHref with
  | some (some h) => h
  | _ => ""

/-- Line 212: relative hrefs are resolved against the site base URL. -/
def resolveLink (href : String) : String :=
  if pyStartsWith href "http" then href else "https://zenmarket.jp/en/" ++ href

/-- Placeholder image sentinel (line 215). -/
def PLACEHOLDER_IMG : String :=
  "https://placehold.co/100x100/CCCCCC/000000?text=No+Image"

/-- Image extraction (lines 214–215): `.img-wrap img`'s `src`, else the
placeholder. -/
def imgUrlOf (n : Node) : String :=
  match n.imgSrc with
  | some (some src) => src
  | _ => PLACEHOLDER_IMG

/-- The `data-jpy` attribute of the price element, when the element exists
and carries the attribute (lines 217, 221). -/
def priceAttr (n : Node) : Option String :=
  match n.priceDataJpy with
  | some (some s) => some s
  | _ => none

/-- Price extraction (lines 218–226).  Both prices start at zero; when the
`data-jpy` attribute is present and parses after stripping yen signs and
commas, the pair is set from the parsed value.  (When the rate is zero,
Python's `ZeroDivisionError` is caught by the same `except: pass`, leaving
`price_eur = 0`; `ℚ` division by zero yields `round2 0 = 0`, the same
value.) -/
def pricePairOf (rate : ℚ) (n : Node) : ℚ × ℚ :=
  match (priceAttr n).bind (fun s => parseFloatQ (stripPriceChars s)) with
  | some p => (p, to_major p rate)
  | none => (0, 0)

/-- Outcome of one invocation of the external image-fetch + Gemini pipeline
inside `get_ai_verdict` (lines 132–157): the `requests.get` call raised, or
returned a non-200 status, or the Gemini call raised, or returned text. -/
inductive VisionCall where
  | fetchError (msg : String)
  | badStatus
  | serviceError (msg : String)
  | text (t : String)
deriving DecidableEq, Inhabited

/-- The external world seen by `get_ai_verdict`, keyed by image URL and
target model. -/
def VisionEnv : Type := String → String → VisionCall

/-- Embedding of `get_ai_verdict` (lines 122–157), with the network/Gemini interaction
abstracted into `env`.  The `genai` library is modelled as importable, so
the first guard is the empty-key check. -/
def get_ai_verdict (env : VisionEnv) (image_url target_model api_key : String) : String :=
  if api_key = "" then "AI Skipped (No Key/Lib)"
  else if pyInStr "placehold.co" image_url then "No Image"
  else
    match env image_url target_model with
    | VisionCall.fetchError msg => "AI Error: " ++ pyTake msg 20
    | VisionCall.badStatus => "Image Load Fail"
    | VisionCall.serviceError msg => "AI Error: " ++ pyTake msg 20
    | VisionCall.text t => pyStrip t

/-- One per-listing record as appended by `run_platform_scrape`
(lines 237–252). -/
structure Row where
  platform : String
  targetModel : String
  minEurFloor : ℚ
  maxEurCeiling : ℚ
  minJpyFloorInternal : ℤ
  qualified : Bool
  statusReason : String
  title : String
  priceJpy : ℚ
  priceEur : ℚ
  imageUrl : String
  zenMarketLink : String
  sourceQuery : String
  aiVerdict : String
deriving DecidableEq, Inhabited

/-- The per-pair arguments of `run_platform_scrape` (line 159). -/
structure ScrapeConfig where
  platformName : String
  query : String
  minEurFloor : ℚ
  maxEurCeiling : ℚ
  rate : ℚ
  negKeywords : List String
  maxPages : ℕ
  enableAi : Bool
  apiKey : String
deriving DecidableEq, Inhabited

/-- Per-item body of the page loop (lines 200–253): resolve title (skip if
none), link (skip if empty), image (placeholder if absent), price (zero if
absent/unparsable), qualify, and attach the vision verdict only when vision
is enabled and the listing qualified. -/
def extractRow (cfg : ScrapeConfig) (env : VisionEnv) (n : Node) : Option Row :=
  match titleTag n with
  | none => none
  | some ttext =>
    if linkHrefOf n = "" then none
    else
      let title := pyStrip ttext
      let link := resolveLink (linkHrefOf n)
      let img_url := imgUrlOf n
      let pq := pricePairOf cfg.rate n
      let min_jpy_floor := to_minor cfg.minEurFloor cfg.rate
      let max_jpy_ceiling := to_minor cfg.maxEurCeiling cfg.rate
      let qual := is_qualified title pq.1 min_jpy_floor max_jpy_ceiling cfg.negKeywords
      let ai_verdict :=
        if cfg.enableAi && qual.1 then get_ai_verdict env img_url cfg.query cfg.apiKey
        else "N/A"
      some {
        platform := cfg.platformName
        targetModel := cfg.query
        minEurFloor := cfg.minEurFloor
        maxEurCeiling := cfg.maxEurCeiling
        minJpyFloorInternal := truncInt min_jpy_floor
        qualified := qual.1
        statusReason := qual.2
        title := title
        priceJpy := pq.1
        priceEur := pq.2
        imageUrl := img_url
        zenMarketLink := link
        sourceQuery := cfg.query
        aiVerdict := ai_verdict }

/-- What one page fetch produces: a failure (non-200 status, or a transport
or parsing exception, line 180 and 257) or the list of candidate item nodes
found by the container selector chain (lines 185–194). -/
inductive FetchResult where
  | fail
  | ok (items : List Node)
deriving DecidableEq, Inhabited

/-- Page loop of `run_platform_scrape` (lines 170–258), by remaining page
budget: a failed fetch stops with nothing from this page; an empty item
list stops with nothing from this page; otherwise the page's extracted rows
are appended, and pagination continues only when at least five rows were
appended. -/
def runPages (cfg : ScrapeConfig) (env : VisionEnv) (fetch : ℕ → FetchResult) :
    ℕ → ℕ → List Row
  | _, 0 => []
  | page, n+1 =>
    match fetch page with
    | FetchResult.fail => []
    | FetchResult.ok items =>
      if items.isEmpty then []
      else
        let rows := items.filterMap (extractRow cfg env)
        if rows.length < 5 then rows
        else rows ++ runPages cfg env fetch (page+1) n

/-- Embedding of `run_platform_scrape` (lines 159–260): pages 1 up to `max_pages`. -/
def run_platform_scrape (cfg : ScrapeConfig) (env : VisionEnv)
    (fetch : ℕ → FetchResult) : List Row :=
  runPages cfg env fetch 1 cfg.maxPages

/-- One cell of the result table. -/
inductive Cell where
  | str (s : String)
  | q (x : ℚ)
  | i (n : ℤ)
  | b (v : Bool)
deriving DecidableEq

/-- The dict appended for each listing (lines 237–252), as keyed cells, in
source order.  Note the "Max EUR Ceiling (€)" entry. -/
def rowCells (r : Row) : List (String × Cell) :=
  [("Platform", Cell.str r.platform),
   ("Target Model", Cell.str r.targetModel),
   ("Min EUR Floor (€)", Cell.q r.minEurFloor),
   ("Max EUR Ceiling (€)", Cell.q r.maxEurCeiling),
   ("Min JPY Floor (Internal)", Cell.i r.minJpyFloorInternal),
   ("Qualified", Cell.b r.qualified),
   ("Status/Reason", Cell.str r.statusReason),
   ("Title", Cell.str r.title),
   ("Price JPY", Cell.q r.priceJpy),
   ("Price EUR (€)", Cell.q r.priceEur),
   ("Image URL", Cell.str r.imageUrl),
   ("ZenMarket Link", Cell.str r.zenMarketLink),
   ("Source Query", Cell.str r.sourceQuery),
   ("AI Verdict", Cell.str r.aiVerdict)]

/-- The list `REQUIRED_COLUMNS` (lines 58–62), verbatim. -/
def REQUIRED_COLUMNS : List String :=
  ["Platform", "Target Model", "Min EUR Floor (€)", "Min JPY Floor (Internal)",
   "Qualified", "Status/Reason", "Title", "Price JPY", "Price EUR (€)", "Image URL",
   "ZenMarket Link", "Source Query", "AI Verdict"]

/-- The call `pd.DataFrame(all_results, columns=REQUIRED_COLUMNS)` (line 260)
restricts every returned record to exactly the listed columns, dropping
record keys not among them. -/
def dataFrameRow (r : Row) : List (String × Option Cell) :=
  REQUIRED_COLUMNS.map (fun c => (c, (rowCells r).lookup c))

lemma runPages_zero (cfg : ScrapeConfig) (env : VisionEnv) (fetch : ℕ → FetchResult)
    (page : ℕ) : runPages cfg env fetch page 0 = [] := rfl

lemma runPages_fail {cfg : ScrapeConfig} {env : VisionEnv} {fetch : ℕ → FetchResult}
    {page : ℕ} (n : ℕ) (h : fetch page = FetchResult.fail) :
    runPages cfg env fetch page (n+1) = [] := by
  simp [runPages, h]

lemma runPages_empty {cfg : ScrapeConfig} {env : VisionEnv} {fetch : ℕ → FetchResult}
    {page : ℕ} (n : ℕ) (h : fetch page = FetchResult.ok []) :
    runPages cfg env fetch page (n+1) = [] := by
  simp [runPages, h]

lemma runPages_short {cfg : ScrapeConfig} {env : VisionEnv} {fetch : ℕ → FetchResult}
    {page : ℕ} {items : List Node} (n : ℕ)
    (h : fetch page = FetchResult.ok items) (hne : items ≠ [])
    (hlen : (items.filterMap (extractRow cfg env)).length < 5) :
    runPages cfg env fetch page (n+1) = items.filterMap (extractRow cfg env) := by
  cases items with
  | nil => exact absurd rfl hne
  | cons a l => simp [runPages, h, hlen]

lemma runPages_cont {cfg : ScrapeConfig} {env : VisionEnv} {fetch : ℕ → FetchResult}
    {page : ℕ} {items : List Node} (n : ℕ)
    (h : fetch page = FetchResult.ok items) (hne : items ≠ [])
    (hlen : ¬ (items.filterMap (extractRow cfg env)).length < 5) :
    runPages cfg env fetch page (n+1)
      = items.filterMap (extractRow cfg env) ++ runPages cfg env fetch (page+1) n := by
  cases items with
  | nil => exact absurd rfl hne
  | cons a l => simp [runPages, h, hlen]

lemma filterMap_replicate {α β : Type} (f : α → Option β) (a : α) (b : β)
    (h : f a = some b) : ∀ k, (List.replicate k a).filterMap f = List.replicate k b := by
  intro k
  induction k with
  | zero => rfl
  | succ k ih => simp [List.replicate_succ, List.filterMap_cons, h, ih]

/-- Concrete run configuration used by the scripted scenarios: the spec's
"Rolex 1601" target at rate 181, vision disabled, page budget 10. -/
def cfgC : ScrapeConfig :=
  { platformName := "Yahoo Auctions"
    query := "Rolex 1601"
    minEurFloor := 2500
    maxEurCeiling := 3500
    rate := 181
    negKeywords := ["strap"]
    maxPages := 10
    enableAi := false
    apiKey := "" }

/-- A vision environment whose image fetches come back with a bad status. -/
def envC : VisionEnv := fun _ _ => VisionCall.badStatus

/-- A fully well-formed candidate node: title, link, image and a parsable
price of ¥500,000. -/
def goodNode : Node :=
  { itemTitle := some "Rolex Datejust 1601"
    translateA := none
    h3 := none
    productItemHref := some (some "yahoo.aspx?itemCode=x123")
    anchorHref := none
    imgSrc := some (some "https://img.example/x.jpg")
    priceDataJpy := some (some "¥500,000") }

/-- The record `run_platform_scrape` builds from `goodNode` under `cfgC`:
price ¥500,000 converts to €2762.43 and the listing qualifies. -/
def goodRowC : Row :=
  { platform := "Yahoo Auctions"
    targetModel := "Rolex 1601"
    minEurFloor := 2500
    maxEurCeiling := 3500
    minJpyFloorInternal := 452500
    qualified := true
    statusReason := "Qualified by Text"
    title := "Rolex Datejust 1601"
    priceJpy := 500000
    priceEur := 2762.43
    imageUrl := "https://img.example/x.jpg"
    zenMarketLink := "https://zenmarket.jp/en/yahoo.aspx?itemCode=x123"
    sourceQuery := "Rolex 1601"
    aiVerdict := "N/A" }

lemma ratFloor_eq_intFloor (q : ℚ) : Rat.floor q = ⌊q⌋ := by
  rw [Rat.floor_def' q, Rat.floor_def]

lemma rhe_eq_of_lt_half {q : ℚ} (n : ℤ) (h1 : (n : ℚ) ≤ q) (h2 : q < n + 1/2) :
    rhe q = n := by
  have hfl : Rat.floor q = n := by
    rw [ratFloor_eq_intFloor]
    refine Int.floor_eq_iff.mpr ⟨h1, by linarith⟩
  unfold rhe
  rw [hfl]
  rw [if_pos (by linarith : q - (n : ℚ) < 1/2)]

lemma to_major_500k : to_major 500000 181 = 2762.43 := by
  unfold to_major round2
  rw [rhe_eq_of_lt_half 276243 (by norm_num) (by norm_num)]
  norm_num

lemma cfgC_floor : to_minor cfgC.minEurFloor cfgC.rate = 452500 := by
  show to_minor 2500 181 = 452500
  unfold to_minor
  norm_num

lemma cfgC_ceil : to_minor cfgC.maxEurCeiling cfgC.rate = 633500 := by
  show to_minor 3500 181 = 633500
  unfold to_minor
  norm_num

lemma extract_good : extractRow cfgC envC goodNode = some goodRowC := by
  show some ({
    platform := "Yahoo Auctions"
    targetModel := "Rolex 1601"
    minEurFloor := 2500
    maxEurCeiling := 3500
    minJpyFloorInternal := truncInt (to_minor cfgC.minEurFloor cfgC.rate)
    qualified := (is_qualified "Rolex Datejust 1601" 500000
      (to_minor cfgC.minEurFloor cfgC.rate) (to_minor cfgC.maxEurCeiling cfgC.rate)
      cfgC.negKeywords).1
    statusReason := (is_qualified "Rolex Datejust 1601" 500000
      (to_minor cfgC.minEurFloor cfgC.rate) (to_minor cfgC.maxEurCeiling cfgC.rate)
      cfgC.negKeywords).2
    title := "Rolex Datejust 1601"
    priceJpy := 500000
    priceEur := to_major 500000 181
    imageUrl := "https://img.example/x.jpg"
    zenMarketLink := "https://zenmarket.jp/en/yahoo.aspx?itemCode=x123"
    sourceQuery := "Rolex 1601"
    aiVerdict := "N/A" } : Row) = some goodRowC
  rw [cfgC_floor, cfgC_ceil, to_major_500k]
  unfold goodRowC
  congr 1

lemma filterMap_replicate_good (k : ℕ) :
    (List.replicate k goodNode).filterMap (extractRow cfgC envC)
      = List.replicate k goodRowC :=
  filterMap_replicate _ _ _ extract_good k

/-- C4. Pagination stops exactly on: a failed fetch, an empty page
(that page excluded), a short page of fewer than five extracted rows (that
page included), or an exhausted page budget; in particular a scripted
[10, 10, 3] sequence stops after page 3 including all three pages' rows
(pages beyond 3 are never consulted), and a scripted [10, 0] sequence keeps
only page 1's rows with page 2 contributing nothing. -/
theorem C4_pagination_policy (cfg : ScrapeConfig) (env : VisionEnv)
    (fetch : ℕ → FetchResult) (page n : ℕ) :
    (runPages cfg env fetch page 0 = []) ∧
    (fetch page = FetchResult.fail → runPages cfg env fetch page (n+1) = []) ∧
    (fetch page = FetchResult.ok [] → runPages cfg env fetch page (n+1) = []) ∧
    (∀ items, fetch page = FetchResult.ok items → items ≠ [] →
      (items.filterMap (extractRow cfg env)).length < 5 →
      runPages cfg env fetch page (n+1) = items.filterMap (extractRow cfg env)) ∧
    (∀ items, fetch page = FetchResult.ok items → items ≠ [] →
      ¬ (items.filterMap (extractRow cfg env)).length < 5 →
      runPages cfg env fetch page (n+1)
        = items.filterMap (extractRow cfg env) ++ runPages cfg env fetch (page+1) n) ∧
    (∀ f3 : ℕ → FetchResult,
      f3 1 = FetchResult.ok (List.replicate 10 goodNode) →
      f3 2 = FetchResult.ok (List.replicate 10 goodNode) →
      f3 3 = FetchResult.ok (List.replicate 3 goodNode) →
      run_platform_scrape cfgC envC f3
        = (List.replicate 10 goodNode).filterMap (extractRow cfgC envC)
          ++ (List.replicate 10 goodNode).filterMap (extractRow cfgC envC)
          ++ (List.replicate 3 goodNode).filterMap (extractRow cfgC envC)) ∧
    (∀ f2 : ℕ → FetchResult,
      f2 1 = FetchResult.ok (List.replicate 10 goodNode) →
      f2 2 = FetchResult.ok [] →
      run_platform_scrape cfgC envC f2
        = (List.replicate 10 goodNode).filterMap (extractRow cfgC envC)) := by
  have hten : ¬ ((List.replicate 10 goodNode).filterMap (extractRow cfgC envC)).length < 5 := by
    rw [filterMap_replicate_good, List.length_replicate]
    omega
  have hthree : ((List.replicate 3 goodNode).filterMap (extractRow cfgC envC)).length < 5 := by
    rw [filterMap_replicate_good, List.length_replicate]
    omega
  have hnn : ∀ k, List.replicate (k+1) goodNode ≠ ([] : List Node) := by
    intro k h
    exact absurd (congrArg List.length h) (by simp)
  refine ⟨rfl, runPages_fail n, runPages_empty n,
    fun items h hne hlen => runPages_short n h hne hlen,
    fun items h hne hlen => runPages_cont n h hne hlen, ?_, ?_⟩
  · intro f3 h1 h2 h3
    show runPages cfgC envC f3 1 cfgC.maxPages = _
    rw [show cfgC.maxPages = 9+1 from rfl]
    rw [runPages_cont 9 h1 (hnn 9) hten]
    rw [show (9 : ℕ) = 8+1 from rfl]
    rw [runPages_cont 8 h2 (hnn 9) hten]
    rw [show (8 : ℕ) = 7+1 from rfl]
    rw [runPages_short 7 h3 (hnn 2) hthree]
    rw [List.append_assoc]
  · intro f2 h1 h2
    show runPages cfgC envC f2 1 cfgC.maxPages = _
    rw [show cfgC.maxPages = 9+1 from rfl]
    rw [runPages_cont 9 h1 (hnn 9) hten]
    rw [show (9 : ℕ) = 8+1 from rfl]
    rw [runPages_empty 8 h2, List.append_nil]

/-- Scripted page sequence with 10, 10 and 3 well-formed items on pages
1–3 and failures beyond. -/
def fetchSeqA : ℕ → FetchResult := fun p =>
  if p = 1 then FetchResult.ok (List.replicate 10 goodNode)
  else if p = 2 then FetchResult.ok (List.replicate 10 goodNode)
  else if p = 3 then FetchResult.ok (List.replicate 3 goodNode)
  else FetchResult.fail

theorem C4_pagination_policy_witness :
    run_platform_scrape cfgC envC fetchSeqA
      = (List.replicate 10 goodNode).filterMap (extractRow cfgC envC)
        ++ (List.replicate 10 goodNode).filterMap (extractRow cfgC envC)
        ++ (List.replicate 3 goodNode).filterMap (extractRow cfgC envC) :=
  ((C4_pagination_policy cfgC envC fetchSeqA 1 0).2.2.2.2.2).1 fetchSeqA rfl rfl rfl

/-- Scripted single-page sequence: page 1 holds exactly one well-formed
item, later fetches fail. -/
def fetchB : ℕ → FetchResult := fun p =>
  if p = 1 then FetchResult.ok [goodNode] else FetchResult.fail

lemma filterMap_single_good :
    ([goodNode] : List Node).filterMap (extractRow cfgC envC) = [goodRowC] := by
  simp [List.filterMap_cons, extract_good]

lemma run_fetchB : run_platform_scrape cfgC envC fetchB = [goodRowC] := by
  show runPages cfgC envC fetchB 1 cfgC.maxPages = [goodRowC]
  rw [show cfgC.maxPages = 9+1 from rfl]
  rw [runPages_short 9 (show fetchB 1 = FetchResult.ok [goodNode] from rfl)
    (by simp) (by rw [filterMap_single_good]; simp)]
  exact filterMap_single_good

/-- C5, code bug, evaluated. Every record dict appended by
`run_platform_scrape` carries the "Max EUR Ceiling (€)" key, but
`REQUIRED_COLUMNS` omits it, so the returned `DataFrame` — built with
`columns=REQUIRED_COLUMNS` — lacks the ceiling for every emitted record;
exhibited on a run that emits one record. -/
theorem C5_ceiling_column_dropped :
    ("Max EUR Ceiling (€)" ∈ (rowCells goodRowC).map Prod.fst) ∧
    ("Max EUR Ceiling (€)" ∉ REQUIRED_COLUMNS) ∧
    run_platform_scrape cfgC envC fetchB = [goodRowC] ∧
    ("Max EUR Ceiling (€)" ∉ (dataFrameRow goodRowC).map Prod.fst) :=
  ⟨by decide, by decide, run_fetchB, by decide⟩

/-- A node whose price element carries an unparsable `data-jpy`. -/
def badPriceNode : Node :=
  { itemTitle := some "Rolex Datejust 1601"
    translateA := none
    h3 := none
    productItemHref := some (some "yahoo.aspx?itemCode=x124")
    anchorHref := none
    imgSrc := some (some "https://img.example/y.jpg")
    priceDataJpy := some (some "ASK") }

/-- C6. For a node with resolvable title and link whose price attribute
is absent or unparsable, extraction still emits a record, with zero price in
both currencies and the title and link exactly as extracted from the node. -/
theorem C6_malformed_price (cfg : ScrapeConfig) (env : VisionEnv) (n : Node) (t : String)
    (ht : titleTag n = some t)
    (hl : linkHrefOf n ≠ "")
    (hp : (priceAttr n).bind (fun s => parseFloatQ (stripPriceChars s)) = none) :
    (extractRow cfg env n).isSome = true ∧
    (extractRow cfg env n).map Row.priceJpy = some 0 ∧
    (extractRow cfg env n).map Row.priceEur = some 0 ∧
    (extractRow cfg env n).map Row.title = some (pyStrip t) ∧
    (extractRow cfg env n).map Row.zenMarketLink = some (resolveLink (linkHrefOf n)) := by
  have hpq : pricePairOf cfg.rate n = (0, 0) := by
    unfold pricePairOf
    rw [hp]
  simp only [extractRow, ht]
  rw [if_neg hl]
  simp [hpq]

theorem C6_malformed_price_witness :
    (extractRow cfgC envC badPriceNode).isSome = true ∧
    (extractRow cfgC envC badPriceNode).map Row.priceJpy = some 0 ∧
    (extractRow cfgC envC badPriceNode).map Row.priceEur = some 0 ∧
    (extractRow cfgC envC badPriceNode).map Row.title
      = some (pyStrip "Rolex Datejust 1601") ∧
    (extractRow cfgC envC badPriceNode).map Row.zenMarketLink
      = some (resolveLink (linkHrefOf badPriceNode)) :=
  C6_malformed_price cfgC envC badPriceNode "Rolex Datejust 1601" rfl (by decide) rfl

/-- A node none of whose title selectors match. -/
def noTitleNode : Node :=
  { itemTitle := none
    translateA := none
    h3 := none
    productItemHref := some (some "yahoo.aspx?itemCode=x125")
    anchorHref := none
    imgSrc := none
    priceDataJpy := none }

/-- A node whose anchor exists but carries no `href`. -/
def noLinkNode : Node :=
  { itemTitle := some "Rolex Datejust 1601"
    translateA := none
    h3 := none
    productItemHref := some none
    anchorHref := none
    imgSrc := none
    priceDataJpy := none }

/-- A node with title and link but no image element. -/
def noImgNode : Node :=
  { itemTitle := some "Rolex Datejust 1601"
    translateA := none
    h3 := none
    productItemHref := some (some "yahoo.aspx?itemCode=x126")
    anchorHref := none
    imgSrc := none
    priceDataJpy := none }

/-- C7. A node with no resolvable title contributes nothing; a node
with no resolvable link href contributes nothing; a node with title and
link but no image element is emitted with the fixed placeholder image. -/
theorem C7_skip_and_placeholder (cfg : ScrapeConfig) (env : VisionEnv) (n : Node)
    (t : String) :
    (titleTag n = none → extractRow cfg env n = none) ∧
    (linkHrefOf n = "" → extractRow cfg env n = none) ∧
    (titleTag n = some t → linkHrefOf n ≠ "" → n.imgSrc = none →
      (extractRow cfg env n).map Row.imageUrl = some PLACEHOLDER_IMG) := by
  refine ⟨?_, ?_, ?_⟩
  · intro h
    simp only [extractRow, h]
  · intro h
    cases ht : titleTag n with
    | none => simp only [extractRow, ht]
    | some tt =>
      simp only [extractRow, ht]
      rw [if_pos h]
  · intro ht hl hi
    have himg : imgUrlOf n = PLACEHOLDER_IMG := by
      unfold imgUrlOf
      rw [hi]
    simp only [extractRow, ht]
    rw [if_neg hl]
    simp [himg]

theorem C7_skip_and_placeholder_witness :
    (extractRow cfgC envC noTitleNode = none) ∧
    (extractRow cfgC envC noLinkNode = none) ∧
    ((extractRow cfgC envC noImgNode).map Row.imageUrl = some PLACEHOLDER_IMG) :=
  ⟨(C7_skip_and_placeholder cfgC envC noTitleNode "").1 rfl,
   (C7_skip_and_placeholder cfgC envC noLinkNode "").2.1 rfl,
   (C7_skip_and_placeholder cfgC envC noImgNode "Rolex Datejust 1601").2.2
     rfl (by decide) rfl⟩

/-- Forget the vision verdict of a record. -/
def stripVerdict (r : Row) : Row := { r with aiVerdict := "" }

lemma extract_stripVerdict (cfg : ScrapeConfig) (env env2 : VisionEnv) (n : Node) :
    (extractRow cfg env n).map stripVerdict = (extractRow cfg env2 n).map stripVerdict := by
  cases ht : titleTag n with
  | none => simp only [extractRow, ht]
  | some t =>
    simp only [extractRow, ht]
    by_cases hl : linkHrefOf n = ""
    · rw [if_pos hl, if_pos hl]
    · rw [if_neg hl, if_neg hl]
      rfl

/-- Every record in the paginator output comes from extracting some node. -/
lemma mem_runPages {cfg : ScrapeConfig} {env : VisionEnv} {fetch : ℕ → FetchResult} :
    ∀ n page r, r ∈ runPages cfg env fetch page n → ∃ m, extractRow cfg env m = some r := by
  intro n
  induction n with
  | zero =>
    intro page r h
    simp [runPages] at h
  | succ k ih =>
    intro page r h
    cases hf : fetch page with
    | fail =>
      rw [runPages_fail k hf] at h
      simp at h
    | ok items =>
      cases items with
      | nil =>
        rw [runPages_empty k hf] at h
        simp at h
      | cons a l =>
        by_cases hlen : ((a :: l).filterMap (extractRow cfg env)).length < 5
        · rw [runPages_short k hf (by simp) hlen] at h
          obtain ⟨m, _, hsome⟩ := List.mem_filterMap.mp h
          exact ⟨m, hsome⟩
        · rw [runPages_cont k hf (by simp) hlen] at h
          rcases List.mem_append.mp h with h1 | h2
          · obtain ⟨m, _, hsome⟩ := List.mem_filterMap.mp h1
            exact ⟨m, hsome⟩
          · exact ih (page+1) r h2

lemma runPages_stripVerdict (cfg : ScrapeConfig) (env env2 : VisionEnv)
    (fetch : ℕ → FetchResult) :
    ∀ n page, (runPages cfg env fetch page n).map stripVerdict
      = (runPages cfg env2 fetch page n).map stripVerdict := by
  intro n
  induction n with
  | zero => intro page; rfl
  | succ k ih =>
    intro page
    cases hf : fetch page with
    | fail => rw [runPages_fail k hf, runPages_fail k hf]
    | ok items =>
      cases items with
      | nil => rw [runPages_empty k hf, runPages_empty k hf]
      | cons a l =>
        have hfm : ((a :: l).filterMap (extractRow cfg env)).map stripVerdict
            = ((a :: l).filterMap (extractRow cfg env2)).map stripVerdict := by
          rw [List.map_filterMap, List.map_filterMap]
          simp only [extract_stripVerdict cfg env env2]
        have hlen : ((a :: l).filterMap (extractRow cfg env)).length
            = ((a :: l).filterMap (extractRow cfg env2)).length := by
          have h := congrArg List.length hfm
          simpa using h
        by_cases hl5 : ((a :: l).filterMap (extractRow cfg env)).length < 5
        · rw [runPages_short k hf (by simp) hl5,
            runPages_short k hf (by simp) (hlen ▸ hl5)]
          exact hfm
        · rw [runPages_cont k hf (by simp) hl5,
            runPages_cont k hf (by simp) (hlen ▸ hl5)]
          rw [List.map_append, List.map_append, hfm, ih (page+1)]

/-- How the vision verdict field of an extracted record is determined. -/
lemma extractRow_verdict {cfg : ScrapeConfig} {env : VisionEnv} {n : Node} {r : Row}
    (h : extractRow cfg env n = some r) :
    ((cfg.enableAi = false ∨ r.qualified = false) → r.aiVerdict = "N/A") ∧
    (cfg.enableAi = true → r.qualified = true → cfg.apiKey = "" →
      r.aiVerdict = "AI Skipped (No Key/Lib)") ∧
    (cfg.enableAi = true → r.qualified = true → cfg.apiKey ≠ "" →
      pyInStr "placehold.co" r.imageUrl = true → r.aiVerdict = "No Image") := by
  cases ht : titleTag n with
  | none =>
    simp only [extractRow, ht] at h
    exact absurd h (by simp)
  | some t =>
    simp only [extractRow, ht] at h
    by_cases hl : linkHrefOf n = ""
    · rw [if_pos hl] at h
      exact absurd h (by simp)
    · rw [if_neg hl] at h
      obtain rfl := (Option.some.injEq _ _).mp h
      refine ⟨?_, ?_, ?_⟩
      · rintro (hAi | hq)
        · simp [hAi]
        · simp only [Row.qualified] at hq
          simp [hq]
      · intro hAi hq hkey
        simp only [Row.qualified] at hq
        simp [hAi, hq, get_ai_verdict, hkey]
      · intro hAi hq hkey himg
        simp only [Row.qualified] at hq
        simp only [Row.imageUrl] at himg
        simp [hAi, hq, get_ai_verdict, hkey, himg]

lemma to_minor_2500 : to_minor 2500 181 = (452500 : ℚ) := by
  unfold to_minor
  norm_num

lemma to_minor_3500 : to_minor 3500 181 = (633500 : ℚ) := by
  unfold to_minor
  norm_num

/-- Variant of `cfgC` with vision enabled but no API key configured. -/
def cfgAI : ScrapeConfig :=
  { platformName := "Yahoo Auctions"
    query := "Rolex 1601"
    minEurFloor := 2500
    maxEurCeiling := 3500
    rate := 181
    negKeywords := ["strap"]
    maxPages := 10
    enableAi := true
    apiKey := "" }

/-- The record built from `goodNode` under `cfgAI`: identical to `goodRowC`
except that the verdict is the skipped marker, not "N/A". -/
def goodRowAI : Row :=
  { platform := "Yahoo Auctions"
    targetModel := "Rolex 1601"
    minEurFloor := 2500
    maxEurCeiling := 3500
    minJpyFloorInternal := 452500
    qualified := true
    statusReason := "Qualified by Text"
    title := "Rolex Datejust 1601"
    priceJpy := 500000
    priceEur := 2762.43
    imageUrl := "https://img.example/x.jpg"
    zenMarketLink := "https://zenmarket.jp/en/yahoo.aspx?itemCode=x123"
    sourceQuery := "Rolex 1601"
    aiVerdict := "AI Skipped (No Key/Lib)" }

lemma extract_good_AI : extractRow cfgAI envC goodNode = some goodRowAI := by
  show some ({
    platform := "Yahoo Auctions"
    targetModel := "Rolex 1601"
    minEurFloor := 2500
    maxEurCeiling := 3500
    minJpyFloorInternal := truncInt (to_minor 2500 181)
    qualified := (is_qualified "Rolex Datejust 1601" 500000
      (to_minor 2500 181) (to_minor 3500 181) cfgAI.negKeywords).1
    statusReason := (is_qualified "Rolex Datejust 1601" 500000
      (to_minor 2500 181) (to_minor 3500 181) cfgAI.negKeywords).2
    title := "Rolex Datejust 1601"
    priceJpy := 500000
    priceEur := to_major 500000 181
    imageUrl := "https://img.example/x.jpg"
    zenMarketLink := "https://zenmarket.jp/en/yahoo.aspx?itemCode=x123"
    sourceQuery := "Rolex 1601"
    aiVerdict := if cfgAI.enableAi && (is_qualified "Rolex Datejust 1601" 500000
        (to_minor 2500 181) (to_minor 3500 181) cfgAI.negKeywords).1 then
      get_ai_verdict envC "https://img.example/x.jpg" cfgAI.query cfgAI.apiKey
      else "N/A" } : Row) = some goodRowAI
  rw [to_minor_2500, to_minor_3500, to_major_500k]
  unfold goodRowAI
  congr 1

lemma filterMap_single_good_AI :
    ([goodNode] : List Node).filterMap (extractRow cfgAI envC) = [goodRowAI] := by
  simp [List.filterMap_cons, extract_good_AI]

lemma run_fetchB_AI : run_platform_scrape cfgAI envC fetchB = [goodRowAI] := by
  show runPages cfgAI envC fetchB 1 cfgAI.maxPages = [goodRowAI]
  rw [show cfgAI.maxPages = 9+1 from rfl]
  rw [runPages_short 9 (show fetchB 1 = FetchResult.ok [goodNode] from rfl)
    (by simp) (by rw [filterMap_single_good_AI]; simp)]
  exact filterMap_single_good_AI

/-- C8 counterexample. The claim says every listing for which the
verifier is not invoked carries the fixed "N/A" marker.  On the code, an
accepted listing scanned with vision enabled but no API key configured gets
the distinct marker "AI Skipped (No Key/Lib)". -/
theorem C8_vision_counterexample :
    cfgAI.enableAi = true ∧
    cfgAI.apiKey = "" ∧
    run_platform_scrape cfgAI envC fetchB = [goodRowAI] ∧
    goodRowAI.qualified = true ∧
    goodRowAI.aiVerdict = "AI Skipped (No Key/Lib)" ∧
    ("AI Skipped (No Key/Lib)" : String) ≠ "N/A" :=
  ⟨rfl, rfl, run_fetchB_AI, rfl, rfl, by decide⟩

/-- C8 amended. Rejected listings, and all listings when vision is
disabled, carry the fixed "N/A" verdict; accepted listings with vision
enabled but no configured key carry the fixed skipped marker; accepted,
enabled and configured listings with a placeholder image carry "No Image";
and the whole result list minus the verdict field — in particular every
qualified flag and reason — is independent of the vision environment, so
verdicts never feed back into qualification. -/
theorem C8_vision_gating (cfg : ScrapeConfig) (env env2 : VisionEnv)
    (fetch : ℕ → FetchResult) :
    (∀ r ∈ run_platform_scrape cfg env fetch,
      cfg.enableAi = false ∨ r.qualified = false → r.aiVerdict = "N/A") ∧
    (∀ r ∈ run_platform_scrape cfg env fetch,
      cfg.enableAi = true → r.qualified = true → cfg.apiKey = "" →
        r.aiVerdict = "AI Skipped (No Key/Lib)") ∧
    (∀ r ∈ run_platform_scrape cfg env fetch,
      cfg.enableAi = true → r.qualified = true → cfg.apiKey ≠ "" →
        pyInStr "placehold.co" r.imageUrl = true → r.aiVerdict = "No Image") ∧
    (run_platform_scrape cfg env fetch).map stripVerdict
      = (run_platform_scrape cfg env2 fetch).map stripVerdict := by
  refine ⟨?_, ?_, ?_, runPages_stripVerdict cfg env env2 fetch cfg.maxPages 1⟩
  · intro r hr hcond
    obtain ⟨m, hm⟩ := mem_runPages cfg.maxPages 1 r hr
    exact (extractRow_verdict hm).1 hcond
  · intro r hr h1 h2 h3
    obtain ⟨m, hm⟩ := mem_runPages cfg.maxPages 1 r hr
    exact (extractRow_verdict hm).2.1 h1 h2 h3
  · intro r hr h1 h2 h3 h4
    obtain ⟨m, hm⟩ := mem_runPages cfg.maxPages 1 r hr
    exact (extractRow_verdict hm).2.2 h1 h2 h3 h4

theorem C8_vision_gating_witness :
    goodRowC.aiVerdict = "N/A" :=
  (C8_vision_gating cfgC envC envC fetchB).1 goodRowC
    (by rw [run_fetchB]; simp) (Or.inl rfl)

/-- Round-half-to-even lands within half a unit of its argument. -/
lemma rhe_close (q : ℚ) : |(rhe q : ℚ) - q| ≤ 1/2 := by
  have hfl := Int.floor_le q
  have hfu := Int.lt_floor_add_one q
  unfold rhe
  rw [ratFloor_eq_intFloor]
  split_ifs with h1 h2 h3
  · rw [abs_le]
    constructor <;> linarith
  · rw [abs_le]
    push_cast
    constructor <;> linarith
  · have heq : q - (⌊q⌋ : ℚ) = 1/2 := le_antisymm (not_lt.mp h2) (not_lt.mp h1)
    rw [abs_le]
    constructor <;> linarith
  · have heq : q - (⌊q⌋ : ℚ) = 1/2 := le_antisymm (not_lt.mp h2) (not_lt.mp h1)
    rw [abs_le]
    push_cast
    constructor <;> linarith

/-- C9. With `to_minor x r = x * r` and `to_major y r = round(y / r, 2)`
as the code implements them, the round-trip `to_major (to_minor x r) r`
equals `x` within half of the last kept decimal (1/200), for every rate in
the configuration's valid range [100, 250]. -/
theorem C9_currency_roundtrip (x r : ℚ) (h : 100 ≤ r ∧ r ≤ 250) :
    |to_major (to_minor x r) r - x| ≤ 1/200 := by
  have hr : r ≠ 0 := by
    intro h0
    rw [h0] at h
    norm_num at h
  have hdiv : to_minor x r / r = x := by
    unfold to_minor
    field_simp
  unfold to_major round2
  rw [hdiv]
  have h2 := rhe_close (x * 100)
  rw [abs_le] at h2 ⊢
  constructor <;> [nlinarith [h2.1, h2.2]; nlinarith [h2.1, h2.2]]

theorem C9_currency_roundtrip_witness :
    |to_major (to_minor 2500 181) 181 - 2500| ≤ 1/200 :=
  C9_currency_roundtrip 2500 181 (by norm_num)

lemma to_major_zero (r : ℚ) : to_major 0 r = 0 := by
  unfold to_major round2
  rw [zero_div]
  rw [rhe_eq_of_lt_half 0 (by norm_num) (by norm_num)]
  norm_num

/-- The two price fields of any extracted record are tied together by
`to_major` at the run's rate: both set from the parsed attribute, or both
zero. -/
lemma extractRow_price {cfg : ScrapeConfig} {env : VisionEnv} {n : Node} {r : Row}
    (h : extractRow cfg env n = some r) :
    r.priceEur = to_major r.priceJpy cfg.rate := by
  cases ht : titleTag n with
  | none =>
    simp only [extractRow, ht] at h
    exact absurd h (by simp)
  | some t =>
    simp only [extractRow, ht] at h
    by_cases hl : linkHrefOf n = ""
    · rw [if_pos hl] at h
      exact absurd h (by simp)
    · rw [if_neg hl] at h
      obtain rfl := (Option.some.injEq _ _).mp h
      show (pricePairOf cfg.rate n).2 = to_major (pricePairOf cfg.rate n).1 cfg.rate
      unfold pricePairOf
      cases hp : (priceAttr n).bind (fun s => parseFloatQ (stripPriceChars s)) with
      | none => exact (to_major_zero cfg.rate).symm
      | some p => rfl

/-- C10. Every record emitted by `run_platform_scrape` satisfies
`priceEur = round(priceJpy / rate, 2)`: the pair is set together from the
parsed attribute, and on an absent or malformed attribute both stay zero,
with `round(0 / rate, 2) = 0`. -/
theorem C10_price_consistency (cfg : ScrapeConfig) (env : VisionEnv)
    (fetch : ℕ → FetchResult) :
    ∀ r ∈ run_platform_scrape cfg env fetch,
      r.priceEur = to_major r.priceJpy cfg.rate := by
  intro r hr
  obtain ⟨m, hm⟩ := mem_runPages cfg.maxPages 1 r hr
  exact extractRow_price hm

theorem C10_price_consistency_witness :
    goodRowC.priceEur = to_major goodRowC.priceJpy cfgC.rate :=
  C10_price_consistency cfgC envC fetchB goodRowC (by rw [run_fetchB]; simp)
